import Mathlib

/-!
Shallow embedding of the insurance-claims demo application (`app.py`).

The application is a small Flask CRUD service:
  * `allowed_file` / `save_uploaded_file` — the File Store: extension
    allow-list check and type-segregated storage of uploaded binaries;
  * `submit_claim` — the submission handler: required-field validation,
    attachment processing, amount parsing, claim-record persistence;
  * `get_claim`, `download_file`, `list_claims` — the read-side handlers.

The filesystem is modelled by `ServerState`: the uploads tree is the list
of paths of written binary files (in write order), and the claims
directory is `Option` of an association list keyed by claim id (`none`
means the directory itself does not exist yet).  Python's `uuid4().hex[:8]`
suffixes are modelled by an explicit supply of suffix strings, and
`datetime.now().isoformat()` by an explicit `now : String` argument.
Python's built-in `float` parser is a parameter `pyFloat` of the
submission handler; `pyFloatDec` below is a concrete executable instance
covering plain decimal literals, used for concrete evaluations.
-/

namespace ClaimsApp

/-- An uploaded multipart file as the handlers see it: its client-supplied
filename and the byte length of its content (werkzeug `FileStorage`
truthiness is `filename` being non-empty). -/
structure UploadedFile where
  filename : String
  content_size : Nat
deriving Repr, DecidableEq

/-- The dictionary returned by `save_uploaded_file` on success
(an Attachment Reference in the spec's data model). -/
structure FileInfo where
  original_name : String
  saved_name : String
  file_path : String
  file_type : String
  file_size : Nat
deriving Repr, DecidableEq

/-- A persisted claim record, as serialized to `claims_data/<id>.json`. -/
structure ClaimData where
  claim_id : String
  claim_amount : Rat
  description : String
  uploaded_files : List FileInfo
  submission_time : String
deriving Repr, DecidableEq

/-- The filesystem state the handlers touch: `uploads` is the list of
binary file paths written under the uploads tree, `claims_dir` is the
claims directory (`none` when the directory does not exist), an
association list from claim id to the stored record. -/
structure ServerState where
  uploads : List String
  claims_dir : Option (List (String × ClaimData))
deriving Repr, DecidableEq

/-- `ALLOWED_EXTENSIONS = {'pdf', 'png', 'jpg', 'jpeg', 'gif'}` from `app.py`. -/
def ALLOWED_EXTENSIONS : List String := ["pdf", "png", "jpg", "jpeg", "gif"]

/-- The characters after the LAST dot of the list, `none` when no dot
occurs: Python's `s.rsplit('.', 1)[1]` guarded by `'.' in s`. -/
def extAfterLastDot : List Char → Option (List Char)
  | [] => none
  | c :: cs =>
    match extAfterLastDot cs with
    | some e => some e
    | none => if c = '.' then some cs else none

/-- Python's `str.lower()` (character-wise lowercasing; extensionally
`String.toLower`, written on the character list so the kernel can
evaluate it). -/
def lowerStr (s : String) : String := String.mk (s.data.map Char.toLower)

/-- `allowed_file` from `app.py`: `'.' in filename and
filename.rsplit('.', 1)[1].lower() in ALLOWED_EXTENSIONS`. -/
def allowed_file (filename : String) : Bool :=
  filename.data.contains '.' &&
    ALLOWED_EXTENSIONS.contains
      (lowerStr (String.mk ((extAfterLastDot filename.data).getD [])))

/-- `save_uploaded_file` from `app.py`.  Takes the file, the declared
`file_type` string, the claim id, the supply of fresh 8-hex-char suffixes
and the current uploads tree; returns the optional `FileInfo` (Python
returns `None` when the file is falsy or the extension check fails),
the remaining suffix supply, and the new uploads tree.  A suffix is
consumed and a file written exactly when the check passes. -/
def save_uploaded_file (file : UploadedFile) (file_type : String)
    (claim_id : String) (sufs : List String) (ups : List String) :
    Option FileInfo × List String × List String :=
  if file.filename ≠ "" && allowed_file file.filename then
    let original_filename := file.filename
    let file_extension :=
      lowerStr (String.mk ((extAfterLastDot file.filename.data).getD []))
    let unique_filename :=
      claim_id ++ "_" ++ sufs.headD "" ++ "." ++ file_extension
    let subfolder := if file_type = "pdf" then "pdfs" else "images"
    let filepath := "uploads/" ++ subfolder ++ "/" ++ unique_filename
    ( some { original_name := original_filename, saved_name := unique_filename,
             file_path := filepath, file_type := file_type,
             file_size := file.content_size },
      sufs.tail, ups ++ [filepath] )
  else (none, sufs, ups)

/-- The multipart form data of a `/submit_claim` request: the three text
fields as `request.form.get` returns them (`none` when absent), the first
file under the `pdfDocument` key when that key is present, and the list of
files under the `imageEvidence` key when that key is present. -/
structure SubmitRequest where
  claimId : Option String
  claimAmount : Option String
  description : Option String
  pdfDocument : Option UploadedFile
  imageEvidence : Option (List UploadedFile)
deriving Repr, DecidableEq

/-- Python truthiness of an optional form string: present and non-empty. -/
def truthy : Option String → Bool
  | none => false
  | some s => s ≠ ""

/-- Digit characters read as a base-10 natural number. -/
def digitsVal (cs : List Char) : Nat :=
  cs.foldl (fun n c => 10 * n + (c.toNat - 48)) 0

/-- The characters before the first dot paired with the characters after
it (`none` when no dot occurs). -/
def splitAtDot : List Char → List Char × Option (List Char)
  | [] => ([], none)
  | c :: cs =>
    if c = '.' then ([], some cs)
    else
      let p := splitAtDot cs
      (c :: p.1, p.2)

/-- A concrete instance of Python's built-in `float` parser, covering the
plain decimal literals exercised here: an optional minus sign, then
digits with at most one dot and at least one digit.  The handlers below
take the parser as a parameter `pyFloat`; this definition is used to
evaluate them at concrete inputs. -/
def pyFloatDec (s : String) : Option Rat :=
  let p :=
    match s.data with
    | '-' :: t => (true, t)
    | l => (false, l)
  let q := splitAtDot p.2
  match q.2 with
  | none =>
    if q.1 ≠ [] && q.1.all Char.isDigit then
      some (if p.1 then -(digitsVal q.1 : Rat) else (digitsVal q.1 : Rat))
    else none
  | some fp =>
    if (q.1 ++ fp) ≠ [] && (q.1 ++ fp).all Char.isDigit then
      let mag : Rat :=
        (digitsVal q.1 : Rat) + (digitsVal fp : Rat) / ((10 : Rat) ^ fp.length)
      some (if p.1 then -mag else mag)
    else none

/-- One response shape of the `/submit_claim` handler: a success JSON with
the uploaded-file list and confirmation message, or a failure JSON with
`success=False` and an error string. -/
inductive SubmitResponse where
  | ok (uploadedFiles : List FileInfo) (message : String)
  | err (error : String)
deriving Repr, DecidableEq

/-- Response of `/get_claim/<claim_id>`. -/
inductive GetClaimResponse where
  | ok (claim_data : ClaimData)
  | err (error : String)
deriving Repr, DecidableEq

/-- Response of `/download_file/<claim_id>/<filename>`: a binary stream of
the resolved path (via `send_file`), or a failure JSON. -/
inductive DownloadResponse where
  | file (path : String)
  | err (error : String)
deriving Repr, DecidableEq

/-- A row of the `/list_claims` response. -/
structure ClaimSummary where
  claim_id : String
  claim_amount : Rat
  submission_time : String
  files_count : Nat
deriving Repr, DecidableEq

/-- Response of `/list_claims`. -/
inductive ListClaimsResponse where
  | ok (claims : List ClaimSummary)
  | err (error : String)
deriving Repr, DecidableEq

/-- Writing `claims_data/<k>.json`: replaces the entry at key `k` when one
exists (the content of that file is overwritten in place), otherwise the
directory gains a new file. -/
def insertClaim : List (String × ClaimData) → String → ClaimData →
    List (String × ClaimData)
  | [], k, v => [(k, v)]
  | e :: rest, k, v =>
    if e.1 = k then (k, v) :: rest else e :: insertClaim rest k v

/-- Reading `claims_data/<k>.json`: the stored record at key `k`, if any. -/
def lookupClaim : List (String × ClaimData) → String → Option ClaimData
  | [], _ => none
  | e :: rest, k => if e.1 = k then some e.2 else lookupClaim rest k

/-- Lines 100-107 of `app.py`: the `pdfDocument` handling inside
`submit_claim` — when the key is present and the file's name is truthy,
store it with declared type `pdf`; append its `FileInfo` when storage
accepted it. -/
def handlePdf (claim_id : String) (pdfDoc : Option UploadedFile)
    (sufs ups : List String) : List FileInfo × List String × List String :=
  match pdfDoc with
  | none => ([], sufs, ups)
  | some f =>
    if f.filename ≠ "" then
      let r := save_uploaded_file f "pdf" claim_id sufs ups
      match r.1 with
      | some fi => ([fi], r.2.1, r.2.2)
      | none => ([], r.2.1, r.2.2)
    else ([], sufs, ups)

/-- Lines 109-115 of `app.py`: the `imageEvidence` loop inside
`submit_claim` — each file with a truthy name is stored with declared
type `image`; accepted ones are appended in order. -/
def processImages (claim_id : String) :
    List UploadedFile → List String → List String →
    List FileInfo × List String × List String
  | [], sufs, ups => ([], sufs, ups)
  | f :: fs, sufs, ups =>
    if f.filename ≠ "" then
      let r := save_uploaded_file f "image" claim_id sufs ups
      match r.1 with
      | some fi =>
        let rest := processImages claim_id fs r.2.1 r.2.2
        (fi :: rest.1, rest.2.1, rest.2.2)
      | none => processImages claim_id fs r.2.1 r.2.2
    else processImages claim_id fs sufs ups

/-- The whole attachment-processing phase of `submit_claim` (lines
98-115): the optional PDF first, then the images, threading the suffix
supply and the uploads tree. -/
def collectUploads (claim_id : String) (req : SubmitRequest)
    (sufs ups : List String) : List FileInfo × List String × List String :=
  let r1 := handlePdf claim_id req.pdfDocument sufs ups
  let r2 := processImages claim_id (req.imageEvidence.getD []) r1.2.1 r1.2.2
  (r1.1 ++ r2.1, r2.2.1, r2.2.2)

/-- `submit_claim` from `app.py` (lines 82-141).  Validates the three
required form fields, processes the attachments, then builds the claim
record — Python evaluates `float(claim_amount)` at this point, so a parse
failure raises after the attachment files are already written; the
`except` clause turns it into `success=False` with `str(e)` (modelled as
the conversion message), leaving the claims directory untouched.  On
success the record is written to `claims_data/<claim_id>.json`
(`os.makedirs` first ensures the directory, overwriting an existing
record at the same key). -/
def submit_claim (pyFloat : String → Option Rat) (now : String)
    (sufs : List String) (req : SubmitRequest) (st : ServerState) :
    SubmitResponse × ServerState :=
  if truthy req.claimId && truthy req.claimAmount && truthy req.description then
    let claim_id := req.claimId.getD ""
    let r := collectUploads claim_id req sufs st.uploads
    let stFiles : ServerState := { uploads := r.2.2, claims_dir := st.claims_dir }
    match pyFloat (req.claimAmount.getD "") with
    | none =>
      ( .err ("could not convert string to float: " ++ req.claimAmount.getD ""),
        stFiles )
    | some amt =>
      let claim_data : ClaimData :=
        { claim_id := claim_id, claim_amount := amt,
          description := req.description.getD "",
          uploaded_files := r.1, submission_time := now }
      ( .ok r.1 ("Claim " ++ claim_id ++ " submitted successfully"),
        { uploads := stFiles.uploads,
          claims_dir :=
            some (insertClaim (stFiles.claims_dir.getD []) claim_id claim_data) } )
  else (.err "Missing required fields", st)

/-- `get_claim` from `app.py` (lines 143-160): if no file exists at
`claims_data/<claim_id>.json` (the directory may itself be missing),
answer the not-found JSON; otherwise answer the stored record.  The
handler only reads, so the state is returned unchanged. -/
def get_claim (claim_id : String) (st : ServerState) :
    GetClaimResponse × ServerState :=
  match st.claims_dir with
  | none => (.err "Claim not found", st)
  | some entries =>
    match lookupClaim entries claim_id with
    | none => (.err "Claim not found", st)
    | some claim_data => (.ok claim_data, st)

/-- `download_file` from `app.py` (lines 162-181): route to the `pdfs`
subdirectory when the requested filename's lowercased extension is `pdf`,
else to `images`; stream the file when the resolved path exists,
otherwise answer the file-not-found JSON.  A filename without a dot makes
`rsplit('.', 1)[1]` raise `IndexError`, which the `except` clause turns
into `success=False` with `str(e)`.  `claim_id` is never consulted. -/
def download_file (claim_id : String) (filename : String) (st : ServerState) :
    DownloadResponse :=
  match extAfterLastDot filename.data with
  | none => .err "list index out of range"
  | some ext =>
    let file_path :=
      if lowerStr (String.mk ext) = "pdf" then "uploads/pdfs/" ++ filename
      else "uploads/images/" ++ filename
    if st.uploads.contains file_path then .file file_path
    else .err "File not found"

/-- Projection of a stored record to its `/list_claims` row (lines
198-203 of `app.py`). -/
def summaryOf (cd : ClaimData) : ClaimSummary :=
  { claim_id := cd.claim_id, claim_amount := cd.claim_amount,
    submission_time := cd.submission_time,
    files_count := cd.uploaded_files.length }

/-- The comparison under `claims.sort(key=..., reverse=True)`:
`a` may come before `b` when `b`'s submission time is at most `a`'s
(descending lexicographic order on the timestamp strings). -/
def newerFirst (a b : ClaimSummary) : Prop :=
  b.submission_time ≤ a.submission_time

instance : DecidableRel newerFirst := fun a b =>
  inferInstanceAs (Decidable (b.submission_time ≤ a.submission_time))

instance : IsTotal ClaimSummary newerFirst :=
  ⟨fun a b => (le_total a.submission_time b.submission_time).symm⟩

instance : IsTrans ClaimSummary newerFirst :=
  ⟨fun _ _ _ h1 h2 => le_trans h2 h1⟩

/-- `list_claims` from `app.py` (lines 183-211): an absent claims
directory yields the empty listing; otherwise every stored document is
summarised and the rows are sorted newest-first with Python's stable
sort, modelled by `List.insertionSort` (extensionally equal to any stable
sort for this total preorder). -/
def list_claims (st : ServerState) : ListClaimsResponse :=
  match st.claims_dir with
  | none => .ok []
  | some entries =>
    .ok (List.insertionSort newerFirst (entries.map (fun e => summaryOf e.2)))

/-- The attachment files of a submission in processing order: the file
under the `pdfDocument` key (when present) first, then the `imageEvidence`
files. -/
def requestFiles (req : SubmitRequest) : List UploadedFile :=
  req.pdfDocument.toList ++ req.imageEvidence.getD []

/-- `os.path.exists(os.path.join('claims_data', claim_id + '.json'))`:
whether a claim document is stored under the given id. -/
def claimExists (st : ServerState) (claim_id : String) : Bool :=
  match st.claims_dir with
  | none => false
  | some entries => (lookupClaim entries claim_id).isSome

/-- Fixture: a stored claim submitted at the earlier time. -/
def claimA : ClaimData :=
  { claim_id := "A", claim_amount := 10, description := "older claim",
    uploaded_files := [], submission_time := "2024-01-01T08:00:00" }

/-- Fixture: a stored claim submitted at the later time. -/
def claimB : ClaimData :=
  { claim_id := "B", claim_amount := 20, description := "newer claim",
    uploaded_files := [], submission_time := "2024-02-02T09:30:00" }

/-- Fixture: a claims directory holding `claimA` then `claimB`. -/
def twoClaimsEntries : List (String × ClaimData) :=
  [("A", claimA), ("B", claimB)]

/-- Fixture: a server state whose claims directory is `twoClaimsEntries`. -/
def twoClaimsState : ServerState :=
  { uploads := [], claims_dir := some twoClaimsEntries }

example : allowed_file "damage.JPG" = true := by decide
example : allowed_file "estimate.pdf" = true := by decide
example : allowed_file "malware.exe" = false := by decide
example : allowed_file "noextension" = false := by decide
example : allowed_file "dot." = false := by decide
example :
    (save_uploaded_file ⟨"a.PDF", 9⟩ "pdf" "C1" ["aaaa0000"] []).1 =
      some { original_name := "a.PDF", saved_name := "C1_aaaa0000.pdf",
             file_path := "uploads/pdfs/C1_aaaa0000.pdf", file_type := "pdf",
             file_size := 9 } := by decide

/-! ## Helper lemmas -/

/-- A rejected file (falsy name or disallowed extension) leaves the store
untouched: no `FileInfo`, no suffix consumed, no file written. -/
theorem save_uploaded_file_rejected (f : UploadedFile) (t cid : String)
    (sufs ups : List String)
    (h : (f.filename ≠ "" && allowed_file f.filename) = false) :
    save_uploaded_file f t cid sufs ups = (none, sufs, ups) := by
  unfold save_uploaded_file
  rw [h]
  simp

/-- An accepted file produces a `FileInfo` carrying the client filename,
the declared type and the measured size, consumes one suffix, and writes
exactly its `file_path` to the uploads tree. -/
theorem save_uploaded_file_accepted (f : UploadedFile) (t cid : String)
    (sufs ups : List String)
    (h1 : f.filename ≠ "") (h2 : allowed_file f.filename = true) :
    ∃ fi : FileInfo,
      save_uploaded_file f t cid sufs ups = (some fi, sufs.tail, ups ++ [fi.file_path]) ∧
      fi.original_name = f.filename ∧ fi.file_type = t ∧
      fi.file_size = f.content_size := by
  unfold save_uploaded_file
  rw [if_pos (by simp [h1, h2])]
  exact ⟨_, rfl, rfl, rfl, rfl⟩

/-- The store accepts a file exactly when its name is truthy and its
extension passes `allowed_file`; the declared type plays no role. -/
theorem save_uploaded_file_isSome (f : UploadedFile) (t cid : String)
    (sufs ups : List String) :
    (save_uploaded_file f t cid sufs ups).1.isSome =
      (f.filename ≠ "" && allowed_file f.filename) := by
  unfold save_uploaded_file
  split
  next h => rw [h]; rfl
  next h => rw [Bool.not_eq_true] at h; rw [h]; rfl

/-- The uploads tree after a store call is the old tree plus the paths of
the accepted file, if any. -/
theorem save_uploaded_file_uploads (f : UploadedFile) (t cid : String)
    (sufs ups : List String) :
    (save_uploaded_file f t cid sufs ups).2.2 =
      ups ++ ((save_uploaded_file f t cid sufs ups).1.toList).map
        (fun fi => fi.file_path) := by
  unfold save_uploaded_file
  split <;> simp

/-- Looking up the key just written returns the record just written. -/
theorem lookupClaim_insertClaim (l : List (String × ClaimData)) (k : String)
    (v : ClaimData) : lookupClaim (insertClaim l k v) k = some v := by
  induction l with
  | nil => simp [insertClaim, lookupClaim]
  | cons e rest ih =>
    by_cases h : e.1 = k
    · simp [insertClaim, h, lookupClaim]
    · simp [insertClaim, h, lookupClaim, ih]

/-- The image loop keeps exactly the files whose name is truthy and whose
extension is allowed, preserving their order (read off via the stored
client filenames). -/
theorem processImages_names (cid : String) (fs : List UploadedFile) :
    ∀ sufs ups : List String,
      ((processImages cid fs sufs ups).1).map (fun fi => fi.original_name) =
        (fs.filter (fun f => f.filename ≠ "" && allowed_file f.filename)).map
          (fun f => f.filename) := by
  induction fs with
  | nil => intro sufs ups; simp [processImages]
  | cons f fs ih =>
    intro sufs ups
    by_cases h1 : f.filename = ""
    · simp [processImages, h1, List.filter_cons, ih]
    · by_cases h2 : allowed_file f.filename = true
      · obtain ⟨fi, heq, hname, -, -⟩ :=
          save_uploaded_file_accepted f "image" cid sufs ups h1 h2
        simp [processImages, h1, heq, List.filter_cons, h2, hname, ih]
      · rw [Bool.not_eq_true] at h2
        have heq := save_uploaded_file_rejected f "image" cid sufs ups
          (by simp [h2])
        simp [processImages, h1, heq, List.filter_cons, h2, ih]

/-- The uploads tree after the image loop is the old tree plus the
`file_path`s of the accepted images, in order. -/
theorem processImages_uploads (cid : String) (fs : List UploadedFile) :
    ∀ sufs ups : List String,
      (processImages cid fs sufs ups).2.2 =
        ups ++ ((processImages cid fs sufs ups).1).map (fun fi => fi.file_path) := by
  induction fs with
  | nil => intro sufs ups; simp [processImages]
  | cons f fs ih =>
    intro sufs ups
    by_cases h1 : f.filename = ""
    · simp [processImages, h1, ih]
    · by_cases h2 : allowed_file f.filename = true
      · obtain ⟨fi, heq, -, -, -⟩ :=
          save_uploaded_file_accepted f "image" cid sufs ups h1 h2
        simp [processImages, h1, heq, ih]
      · rw [Bool.not_eq_true] at h2
        have heq := save_uploaded_file_rejected f "image" cid sufs ups
          (by simp [h2])
        simp [processImages, h1, heq, ih]

/-- The PDF branch keeps the document file exactly when its name is
truthy and its extension is allowed. -/
theorem handlePdf_names (cid : String) (pd : Option UploadedFile)
    (sufs ups : List String) :
    ((handlePdf cid pd sufs ups).1).map (fun fi => fi.original_name) =
      ((pd.toList).filter (fun f => f.filename ≠ "" && allowed_file f.filename)).map
        (fun f => f.filename) := by
  cases pd with
  | none => simp [handlePdf]
  | some f =>
    by_cases h1 : f.filename = ""
    · simp [handlePdf, h1, List.filter_cons]
    · by_cases h2 : allowed_file f.filename = true
      · obtain ⟨fi, heq, hname, -, -⟩ :=
          save_uploaded_file_accepted f "pdf" cid sufs ups h1 h2
        simp [handlePdf, h1, heq, List.filter_cons, h2, hname]
      · rw [Bool.not_eq_true] at h2
        have heq := save_uploaded_file_rejected f "pdf" cid sufs ups
          (by simp [h2])
        simp [handlePdf, h1, heq, List.filter_cons, h2]

/-- The uploads tree after the PDF branch is the old tree plus the
accepted document's path, if any. -/
theorem handlePdf_uploads (cid : String) (pd : Option UploadedFile)
    (sufs ups : List String) :
    (handlePdf cid pd sufs ups).2.2 =
      ups ++ ((handlePdf cid pd sufs ups).1).map (fun fi => fi.file_path) := by
  cases pd with
  | none => simp [handlePdf]
  | some f =>
    by_cases h1 : f.filename = ""
    · simp [handlePdf, h1]
    · by_cases h2 : allowed_file f.filename = true
      · obtain ⟨fi, heq, -, -, -⟩ :=
          save_uploaded_file_accepted f "pdf" cid sufs ups h1 h2
        simp [handlePdf, h1, heq]
      · rw [Bool.not_eq_true] at h2
        have heq := save_uploaded_file_rejected f "pdf" cid sufs ups
          (by simp [h2])
        simp [handlePdf, h1, heq]

/-- The whole attachment phase keeps exactly the submitted files with a
truthy name and an allowed extension, in submission order. -/
theorem collectUploads_names (cid : String) (req : SubmitRequest)
    (sufs ups : List String) :
    ((collectUploads cid req sufs ups).1).map (fun fi => fi.original_name) =
      ((requestFiles req).filter
        (fun f => f.filename ≠ "" && allowed_file f.filename)).map
        (fun f => f.filename) := by
  unfold collectUploads requestFiles
  simp [List.filter_append, handlePdf_names, processImages_names]

/-- The uploads tree after the whole attachment phase is the old tree
plus the paths of all accepted attachments, in order. -/
theorem collectUploads_uploads (cid : String) (req : SubmitRequest)
    (sufs ups : List String) :
    (collectUploads cid req sufs ups).2.2 =
      ups ++ ((collectUploads cid req sufs ups).1).map (fun fi => fi.file_path) := by
  unfold collectUploads
  simp [processImages_uploads, handlePdf_uploads, List.append_assoc]

/-! ## Claim theorems -/

/-- C5: whenever `claimId`, `claimAmount` or `description` is absent or
empty, the submission handler answers `success=False` with the
missing-required-fields error, and the state is untouched: no claim
document is created and no attachment file is written. -/
theorem submit_missing_fields (pyFloat : String → Option Rat) (now : String)
    (sufs : List String) (req : SubmitRequest) (st : ServerState)
    (h : (truthy req.claimId && truthy req.claimAmount &&
          truthy req.description) = false) :
    submit_claim pyFloat now sufs req st = (.err "Missing required fields", st) := by
  unfold submit_claim
  rw [h]
  simp

/-- C5 witness: a concrete submission with the description missing is
rejected with the missing-required-fields error and leaves the state
unchanged. -/
theorem submit_missing_fields_witness :
    submit_claim pyFloatDec "2024-03-03T12:00:00" ["aaaa0000"]
        { claimId := some "C101", claimAmount := some "50", description := none,
          pdfDocument := none, imageEvidence := some [⟨"proof.png", 6⟩] }
        { uploads := [], claims_dir := none } =
      (.err "Missing required fields", { uploads := [], claims_dir := none }) :=
  submit_missing_fields pyFloatDec "2024-03-03T12:00:00" ["aaaa0000"]
    { claimId := some "C101", claimAmount := some "50", description := none,
      pdfDocument := none, imageEvidence := some [⟨"proof.png", 6⟩] }
    { uploads := [], claims_dir := none } (by decide)

/-- C7: fetching a claim id for which no claim document exists yields the
structured not-found response (`success=False`, `Claim not found`) — by
the response type never a transport-level failure — and leaves the store
of claim documents unchanged. -/
theorem get_claim_not_found (claim_id : String) (st : ServerState)
    (h : claimExists st claim_id = false) :
    get_claim claim_id st = (.err "Claim not found", st) := by
  unfold get_claim
  cases hd : st.claims_dir with
  | none => rfl
  | some entries =>
    cases hl : lookupClaim entries claim_id with
    | none => simp [hl]
    | some cd =>
      exfalso
      unfold claimExists at h
      rw [hd] at h
      simp [hl] at h

/-- C7 witness: fetching an unknown id from a directory holding other
claims answers the not-found response with the state unchanged. -/
theorem get_claim_not_found_witness :
    get_claim "UNKNOWN" twoClaimsState = (.err "Claim not found", twoClaimsState) :=
  get_claim_not_found "UNKNOWN" twoClaimsState (by decide)

/-- C9: the download handler never consults the `claim_id` path segment:
for a fixed storage state and filename, responses to two requests that
differ only in `claim_id` are identical. -/
theorem download_independent_of_claim_id (cid1 cid2 filename : String)
    (st : ServerState) :
    download_file cid1 filename st = download_file cid2 filename st := rfl

/-- C10: when the claims directory does not exist at all, listing claims
answers `success=True` with an empty list, not a scan-fault error. -/
theorem list_claims_no_directory (st : ServerState)
    (h : st.claims_dir = none) : list_claims st = .ok [] := by
  unfold list_claims
  rw [h]

/-- C10 witness: listing on a fresh state (uploads present but no claims
directory) yields the empty success response. -/
theorem list_claims_no_directory_witness :
    list_claims { uploads := ["uploads/pdfs/x_a.pdf"], claims_dir := none } = .ok [] :=
  list_claims_no_directory { uploads := ["uploads/pdfs/x_a.pdf"], claims_dir := none } rfl

/-- C2 counterexample: the claim predicts that a file with an image
extension uploaded as the document type is rejected with no file written;
the code accepts `photo.jpg` under declared type `pdf` (the single
combined allow-list is consulted) and writes it — into the `pdfs`
subdirectory, no less. -/
theorem store_type_mismatch_accepted_cex :
    (save_uploaded_file ⟨"photo.jpg", 7⟩ "pdf" "C9" ["aaaabbbb"] []).1 ≠ none ∧
    (save_uploaded_file ⟨"photo.jpg", 7⟩ "pdf" "C9" ["aaaabbbb"] []).2.2 =
      ["uploads/pdfs/C9_aaaabbbb.jpg"] := by
  constructor
  · decide
  · decide

/-- C2 (amended): acceptance by the store is type-independent — a file is
accepted exactly when its name is truthy and its extension passes the
single combined case-insensitive allow-list `allowed_file`; the declared
type never changes the verdict, and a rejected call writes no file. -/
theorem store_accepts_combined_allowlist (f : UploadedFile) (t cid : String)
    (sufs ups : List String) :
    ((save_uploaded_file f t cid sufs ups).1.isSome =
      (f.filename ≠ "" && allowed_file f.filename)) ∧
    (∀ t2 : String, (save_uploaded_file f t2 cid sufs ups).1.isSome =
      (save_uploaded_file f t cid sufs ups).1.isSome) ∧
    ((save_uploaded_file f t cid sufs ups).1 = none →
      (save_uploaded_file f t cid sufs ups).2.2 = ups) := by
  refine ⟨save_uploaded_file_isSome f t cid sufs ups, ?_, ?_⟩
  · intro t2
    rw [save_uploaded_file_isSome, save_uploaded_file_isSome]
  · intro h
    rw [save_uploaded_file_uploads, h]
    simp

/-- C2 (amended) witness: a `.txt` file is rejected whatever the declared
type, and nothing is written. -/
theorem store_accepts_combined_allowlist_witness :
    ((save_uploaded_file ⟨"notes.txt", 3⟩ "pdf" "C2" ["cccc1111"] []).1.isSome =
      ((⟨"notes.txt", 3⟩ : UploadedFile).filename ≠ "" &&
        allowed_file (⟨"notes.txt", 3⟩ : UploadedFile).filename)) ∧
    (save_uploaded_file ⟨"notes.txt", 3⟩ "pdf" "C2" ["cccc1111"] []).2.2 = [] :=
  ⟨(store_accepts_combined_allowlist ⟨"notes.txt", 3⟩ "pdf" "C2" ["cccc1111"] []).1,
   (store_accepts_combined_allowlist ⟨"notes.txt", 3⟩ "pdf" "C2" ["cccc1111"] []).2.2
     (by decide)⟩

/-- C8: the download handler routes purely on the requested filename's
extension — `pdf` (case-insensitively) reads from the `pdfs`
subdirectory, any other extension from the `images` subdirectory — and
answers the file-not-found JSON when the resolved path does not exist;
the response depends on the state only through the uploads tree, never
through stored attachment references. -/
theorem download_routes_by_extension (cid filename : String) (st : ServerState)
    (ext : List Char) (hext : extAfterLastDot filename.data = some ext) :
    (lowerStr (String.mk ext) = "pdf" →
      download_file cid filename st =
        (if st.uploads.contains ("uploads/pdfs/" ++ filename) then
           .file ("uploads/pdfs/" ++ filename)
         else .err "File not found")) ∧
    (lowerStr (String.mk ext) ≠ "pdf" →
      download_file cid filename st =
        (if st.uploads.contains ("uploads/images/" ++ filename) then
           .file ("uploads/images/" ++ filename)
         else .err "File not found")) ∧
    (∀ st2 : ServerState, st2.uploads = st.uploads →
      download_file cid filename st2 = download_file cid filename st) := by
  refine ⟨?_, ?_, ?_⟩
  · intro hpdf
    unfold download_file
    rw [hext]
    simp [hpdf]
  · intro hnot
    unfold download_file
    rw [hext]
    simp [hnot]
  · intro st2 hu
    unfold download_file
    rw [hext, hu]

/-- C8 witness: `report.PDF` resolves to the `pdfs` subdirectory and is
streamed when present there; `scan.gif` resolves to the `images`
subdirectory and yields the file-not-found JSON when absent. -/
theorem download_routes_by_extension_witness :
    download_file "X" "report.PDF"
        { uploads := ["uploads/pdfs/report.PDF"], claims_dir := none } =
      .file "uploads/pdfs/report.PDF" ∧
    download_file "Y" "scan.gif"
        { uploads := ["uploads/pdfs/report.PDF"], claims_dir := none } =
      .err "File not found" := by
  constructor
  · rw [(download_routes_by_extension "X" "report.PDF"
      { uploads := ["uploads/pdfs/report.PDF"], claims_dir := none }
      ['P', 'D', 'F'] (by decide)).1 (by decide)]
    decide
  · rw [(download_routes_by_extension "Y" "scan.gif"
      { uploads := ["uploads/pdfs/report.PDF"], claims_dir := none }
      ['g', 'i', 'f'] (by decide)).2.1 (by decide)]
    decide

/-- C3 counterexample: the claim predicts that a submission whose
`claimAmount` fails numeric parsing writes no attachment file; in the
code `float(claimAmount)` is evaluated only after the attachment loop,
so the submission below is rejected with the caught-fault message and
creates no claim document, yet its image file has been written to
storage. -/
theorem submit_parse_failure_writes_file_cex :
    (submit_claim pyFloatDec "2024-01-01T00:00:00" ["cafebabe"]
        { claimId := some "C3", claimAmount := some "abc",
          description := some "flood damage", pdfDocument := none,
          imageEvidence := some [⟨"ev.png", 4⟩] }
        { uploads := [], claims_dir := none }).1 =
      .err "could not convert string to float: abc" ∧
    (submit_claim pyFloatDec "2024-01-01T00:00:00" ["cafebabe"]
        { claimId := some "C3", claimAmount := some "abc",
          description := some "flood damage", pdfDocument := none,
          imageEvidence := some [⟨"ev.png", 4⟩] }
        { uploads := [], claims_dir := none }).2.uploads =
      ["uploads/images/C3_cafebabe.png"] ∧
    (submit_claim pyFloatDec "2024-01-01T00:00:00" ["cafebabe"]
        { claimId := some "C3", claimAmount := some "abc",
          description := some "flood damage", pdfDocument := none,
          imageEvidence := some [⟨"ev.png", 4⟩] }
        { uploads := [], claims_dir := none }).2.claims_dir = none := by
  refine ⟨by decide, by decide, by decide⟩

/-- C3 (amended): `claimAmount` is parsed only after the attachment
fields are processed; a submission with all required fields whose amount
fails parsing is rejected as a whole (`success=False` with the
caught-fault message) and creates no claim document, but the attachment
files accepted during processing have already been written to storage. -/
theorem submit_parse_failure_after_uploads
    (pyFloat : String → Option Rat) (now : String) (sufs : List String)
    (req : SubmitRequest) (st : ServerState) (cid amtText desc : String)
    (hcid : req.claimId = some cid) (hamt : req.claimAmount = some amtText)
    (hdesc : req.description = some desc)
    (hc : cid ≠ "") (ha : amtText ≠ "") (hd : desc ≠ "")
    (hfail : pyFloat amtText = none) :
    (submit_claim pyFloat now sufs req st).1 =
      .err ("could not convert string to float: " ++ amtText) ∧
    (submit_claim pyFloat now sufs req st).2.claims_dir = st.claims_dir ∧
    (submit_claim pyFloat now sufs req st).2.uploads =
      st.uploads ++ ((collectUploads cid req sufs st.uploads).1).map
        (fun fi => fi.file_path) := by
  have hcond : (truthy (some cid) && truthy (some amtText) &&
      truthy (some desc)) = true := by
    simp [truthy, hc, ha, hd]
  unfold submit_claim
  rw [hcid, hamt, hdesc]
  simp only [Option.getD_some]
  rw [if_pos hcond, hfail]
  exact ⟨rfl, rfl, collectUploads_uploads cid req sufs st.uploads⟩

/-- C3 (amended) witness: the concrete parse-failing submission of the
counterexample satisfies the amended description. -/
theorem submit_parse_failure_after_uploads_witness :
    (submit_claim pyFloatDec "2024-01-01T00:00:00" ["cafebabe"]
        { claimId := some "C3", claimAmount := some "abc",
          description := some "flood damage", pdfDocument := none,
          imageEvidence := some [⟨"ev.png", 4⟩] }
        { uploads := [], claims_dir := none }).1 =
      .err ("could not convert string to float: " ++ "abc") ∧
    (submit_claim pyFloatDec "2024-01-01T00:00:00" ["cafebabe"]
        { claimId := some "C3", claimAmount := some "abc",
          description := some "flood damage", pdfDocument := none,
          imageEvidence := some [⟨"ev.png", 4⟩] }
        { uploads := [], claims_dir := none }).2.claims_dir = none ∧
    (submit_claim pyFloatDec "2024-01-01T00:00:00" ["cafebabe"]
        { claimId := some "C3", claimAmount := some "abc",
          description := some "flood damage", pdfDocument := none,
          imageEvidence := some [⟨"ev.png", 4⟩] }
        { uploads := [], claims_dir := none }).2.uploads =
      [] ++ ((collectUploads "C3"
        { claimId := some "C3", claimAmount := some "abc",
          description := some "flood damage", pdfDocument := none,
          imageEvidence := some [⟨"ev.png", 4⟩] } ["cafebabe"] []).1).map
        (fun fi => fi.file_path) :=
  submit_parse_failure_after_uploads pyFloatDec "2024-01-01T00:00:00" ["cafebabe"]
    { claimId := some "C3", claimAmount := some "abc",
      description := some "flood damage", pdfDocument := none,
      imageEvidence := some [⟨"ev.png", 4⟩] }
    { uploads := [], claims_dir := none } "C3" "abc" "flood damage"
    rfl rfl rfl (by decide) (by decide) (by decide) (by decide)

/-- C4: with all required fields present and a parsable amount, every
individual file whose name is falsy or whose extension fails the
allow-list is silently skipped — the store yields `none` rather than an
error — and the submission succeeds, its `uploaded_files` carrying
exactly the accepted attachments in submission order. -/
theorem submit_succeeds_skipping_rejected
    (pyFloat : String → Option Rat) (now : String) (sufs : List String)
    (req : SubmitRequest) (st : ServerState) (cid amtText desc : String)
    (q : Rat)
    (hcid : req.claimId = some cid) (hamt : req.claimAmount = some amtText)
    (hdesc : req.description = some desc)
    (hc : cid ≠ "") (ha : amtText ≠ "") (hd : desc ≠ "")
    (hq : pyFloat amtText = some q) :
    ∃ files : List FileInfo,
      (submit_claim pyFloat now sufs req st).1 =
        .ok files ("Claim " ++ cid ++ " submitted successfully") ∧
      files.map (fun fi => fi.original_name) =
        ((requestFiles req).filter
          (fun f => f.filename ≠ "" && allowed_file f.filename)).map
          (fun f => f.filename) ∧
      (∀ (f : UploadedFile) (t cid2 : String) (s u : List String),
        (f.filename ≠ "" && allowed_file f.filename) = false →
        (save_uploaded_file f t cid2 s u).1 = none) := by
  have hcond : (truthy (some cid) && truthy (some amtText) &&
      truthy (some desc)) = true := by
    simp [truthy, hc, ha, hd]
  unfold submit_claim
  rw [hcid, hamt, hdesc]
  simp only [Option.getD_some]
  rw [if_pos hcond, hq]
  exact ⟨(collectUploads cid req sufs st.uploads).1, rfl,
    collectUploads_names cid req sufs st.uploads,
    fun f t cid2 s u hbad => by rw [save_uploaded_file_rejected f t cid2 s u hbad]⟩

/-- C4 witness: a submission attaching a rejected `.txt` document and an
accepted `.png` image succeeds with only the image listed. -/
theorem submit_succeeds_skipping_rejected_witness :
    ∃ files : List FileInfo,
      (submit_claim pyFloatDec "2024-04-04T10:00:00" ["dddd2222"]
          { claimId := some "C4", claimAmount := some "100",
            description := some "door dent",
            pdfDocument := some ⟨"notes.txt", 3⟩,
            imageEvidence := some [⟨"pic.png", 5⟩] }
          { uploads := [], claims_dir := none }).1 =
        .ok files ("Claim " ++ "C4" ++ " submitted successfully") ∧
      files.map (fun fi => fi.original_name) =
        ((requestFiles
          { claimId := some "C4", claimAmount := some "100",
            description := some "door dent",
            pdfDocument := some ⟨"notes.txt", 3⟩,
            imageEvidence := some [⟨"pic.png", 5⟩] }).filter
          (fun f => f.filename ≠ "" && allowed_file f.filename)).map
          (fun f => f.filename) ∧
      (∀ (f : UploadedFile) (t cid2 : String) (s u : List String),
        (f.filename ≠ "" && allowed_file f.filename) = false →
        (save_uploaded_file f t cid2 s u).1 = none) :=
  submit_succeeds_skipping_rejected pyFloatDec "2024-04-04T10:00:00" ["dddd2222"]
    { claimId := some "C4", claimAmount := some "100",
      description := some "door dent",
      pdfDocument := some ⟨"notes.txt", 3⟩,
      imageEvidence := some [⟨"pic.png", 5⟩] }
    { uploads := [], claims_dir := none } "C4" "100" "door dent" 100
    rfl rfl rfl (by decide) (by decide) (by decide) (by decide)

/-- C1: for every submission that succeeds, fetching the same claim id
from the post-submission state returns a record whose `claim_id`,
`claim_amount`, `description` and `uploaded_files` equal what the save
stored, with `submission_time` fixed at save time; the stored
`claim_amount` is exactly the parsed numeric value of the submitted
`claimAmount` text. -/
theorem submit_then_get_roundtrip
    (pyFloat : String → Option Rat) (now : String) (sufs : List String)
    (req : SubmitRequest) (st : ServerState) (cid amtText desc : String)
    (files : List FileInfo) (msg : String)
    (hcid : req.claimId = some cid) (hamt : req.claimAmount = some amtText)
    (hdesc : req.description = some desc)
    (hok : (submit_claim pyFloat now sufs req st).1 = .ok files msg) :
    ∃ q : Rat, pyFloat amtText = some q ∧
      (get_claim cid (submit_claim pyFloat now sufs req st).2).1 =
        .ok { claim_id := cid, claim_amount := q, description := desc,
              uploaded_files := files, submission_time := now } := by
  unfold submit_claim at hok ⊢
  rw [hcid, hamt, hdesc] at hok ⊢
  simp only [Option.getD_some] at hok ⊢
  by_cases hcond : (truthy (some cid) && truthy (some amtText) &&
      truthy (some desc)) = true
  · rw [if_pos hcond] at hok ⊢
    cases hq : pyFloat amtText with
    | none => rw [hq] at hok; exact SubmitResponse.noConfusion hok
    | some q =>
      rw [hq] at hok
      refine ⟨q, rfl, ?_⟩
      injection hok with hfiles hmsg
      simp [get_claim, lookupClaim_insertClaim, hfiles]
  · rw [if_neg hcond] at hok
    exact absurd hok (by simp)

/-- C1 witness: a concrete successful submission with no attachments
round-trips through `get_claim` with the exact parsed amount. -/
theorem submit_then_get_roundtrip_witness :
    ∃ q : Rat, pyFloatDec "2500" = some q ∧
      (get_claim "C100" (submit_claim pyFloatDec "2024-05-01T10:00:00" []
          { claimId := some "C100", claimAmount := some "2500",
            description := some "rear-end collision", pdfDocument := none,
            imageEvidence := none }
          { uploads := [], claims_dir := none }).2).1 =
        .ok { claim_id := "C100", claim_amount := q,
              description := "rear-end collision", uploaded_files := [],
              submission_time := "2024-05-01T10:00:00" } :=
  submit_then_get_roundtrip pyFloatDec "2024-05-01T10:00:00" []
    { claimId := some "C100", claimAmount := some "2500",
      description := some "rear-end collision", pdfDocument := none,
      imageEvidence := none }
    { uploads := [], claims_dir := none } "C100" "2500" "rear-end collision"
    [] "Claim C100 submitted successfully" rfl rfl rfl (by decide)

/-- C6: on any claims directory (all stored documents are well-formed by
construction of the state type), listing yields one summary per stored
claim — the projection to claim id, amount, submission time and
attachment count — ordered descending by the stored submission-time
string: whenever one row's time is strictly below another's, the later
row appears strictly earlier in the output. -/
theorem list_claims_sorted_desc (st : ServerState)
    (entries : List (String × ClaimData))
    (h : st.claims_dir = some entries) :
    ∃ out : List ClaimSummary,
      list_claims st = .ok out ∧
      out.Perm (entries.map (fun e => summaryOf e.2)) ∧
      out.Sorted newerFirst ∧
      ∀ i j : Fin out.length,
        (out.get i).submission_time < (out.get j).submission_time →
          j.val < i.val := by
  refine ⟨List.insertionSort newerFirst (entries.map (fun e => summaryOf e.2)),
    ?_, List.perm_insertionSort _ _, List.sorted_insertionSort _ _, ?_⟩
  · unfold list_claims
    rw [h]
  · intro i j hlt
    by_contra hji
    rw [not_lt] at hji
    rcases lt_or_eq_of_le hji with hij | hij
    · have hrel := (List.sorted_insertionSort newerFirst
        (entries.map (fun e => summaryOf e.2))).rel_get_of_lt
        (a := i) (b := j) hij
      exact absurd hlt (not_lt.mpr hrel)
    · rw [Fin.ext hij] at hlt
      exact lt_irrefl _ hlt

/-- C6 witness: listing the fixture directory, whose two claims were
submitted at distinct times, yields rows in newest-first order. -/
theorem list_claims_sorted_desc_witness :
    ∃ out : List ClaimSummary,
      list_claims twoClaimsState = .ok out ∧
      out.Perm (twoClaimsEntries.map (fun e => summaryOf e.2)) ∧
      out.Sorted newerFirst ∧
      ∀ i j : Fin out.length,
        (out.get i).submission_time < (out.get j).submission_time →
          j.val < i.val :=
  list_claims_sorted_desc twoClaimsState twoClaimsEntries rfl

end ClaimsApp
